import Mathlib

/-!
Shallow embedding of the roadmap node-graph editor
(`src/app/features/roadmaps/node-editor-canvas/node-editor-canvas.component.ts`
together with the data model in `src/app/models/roadmap.model.ts`).

Conventions of the embedding:
* JavaScript numbers (positions, mouse coordinates, pan offsets, zoom) are
  modelled as rationals `ℚ`, so that the coordinate algebra is exact.
* `crypto.randomUUID()` is nondeterministic; every method that calls it takes
  the generated id(s) as an explicit parameter, and freshness is stated as a
  hypothesis where a claim needs it.
* Angular signals become fields of an explicit `EditorState`; the component's
  `output()` emissions (`nodesChange` / `connectionsChange`) are recorded in a
  list of `Emit` values returned next to the new state.  The host echoes every
  emitted list back into the corresponding input, so the state fields `nodes`
  and `connections` are updated to the emitted lists.
* TypeScript truthiness on `string | null` (`!state.sourceNodeId`) is `true`
  exactly on `null` and on the empty string; this is `strFalsy` below.
* Layout metrics that the component reads from `window` (`getNodeWidth`,
  `getNodeHeight`, `getToolbarHeight`) and the container bounding rectangle
  are passed as parameters, queried at call time exactly as in the source.
-/

namespace NodeEditor

/-- `NodeType` from `roadmap.model.ts`: closed enumeration of node kinds. -/
inductive NodeType where
  | topic
  | project
  | milestone
  | checkpoint
deriving DecidableEq, Repr

/-- `ResourceType` from `roadmap.model.ts`. -/
inductive ResourceType where
  | video
  | article
  | course
  | documentation
  | exercise
  | book
deriving DecidableEq, Repr

/-- `NodePosition` from `roadmap.model.ts`: a 2D point in canvas logical
coordinates. -/
structure NodePosition where
  x : ℚ
  y : ℚ
deriving DecidableEq, Repr

/-- `Resource` from `roadmap.model.ts`. -/
structure Resource where
  id : String
  title : String
  url : String
  type : ResourceType
  isPremium : Bool
deriving DecidableEq, Repr

/-- `RoadmapNode` from `roadmap.model.ts`. -/
structure RoadmapNode where
  id : String
  title : String
  description : String
  type : NodeType
  position : NodePosition
  resources : List Resource
  estimatedHours : ℚ
  isOptional : Bool
deriving DecidableEq, Repr

/-- `RoadmapConnection` from `roadmap.model.ts`: a directed edge between two
node ids. -/
structure RoadmapConnection where
  id : String
  sourceNodeId : String
  targetNodeId : String
  isRequired : Bool
deriving DecidableEq, Repr

/-- `ConnectionState` from the component: the in-progress connection draw. -/
structure ConnectionState where
  isConnecting : Bool
  sourceNodeId : Option String
  mouseX : ℚ
  mouseY : ℚ
deriving DecidableEq, Repr

/-- `ViewportState` from the component: pan offset `x, y` and `zoom`. -/
structure ViewportState where
  x : ℚ
  y : ℚ
  zoom : ℚ
deriving DecidableEq, Repr

/-- `Partial<Resource>` as used by the `editingResource` signal: every field
may be absent. -/
structure PartialResource where
  id : Option String := none
  title : Option String := none
  url : Option String := none
  type : Option ResourceType := none
  isPremium : Option Bool := none
deriving DecidableEq, Repr

/-- The payload of the `editingResource` signal:
`{ nodeId: string; resource: Partial<Resource> }`. -/
structure EditingResource where
  nodeId : String
  resource : PartialResource
deriving DecidableEq, Repr

/-- `Partial<RoadmapNode>` as taken by `updateNode`. -/
structure PartialNode where
  id : Option String := none
  title : Option String := none
  description : Option String := none
  type : Option NodeType := none
  position : Option NodePosition := none
  resources : Option (List Resource) := none
  estimatedHours : Option ℚ := none
  isOptional : Option Bool := none
deriving DecidableEq, Repr

/-- Object-spread merge `{ ...node, ...updates }` for `Partial<RoadmapNode>`:
every field present in `updates` overrides the one of `node`. -/
def applyUpdates (node : RoadmapNode) (updates : PartialNode) : RoadmapNode where
  id := updates.id.getD node.id
  title := updates.title.getD node.title
  description := updates.description.getD node.description
  type := updates.type.getD node.type
  position := updates.position.getD node.position
  resources := updates.resources.getD node.resources
  estimatedHours := updates.estimatedHours.getD node.estimatedHours
  isOptional := updates.isOptional.getD node.isOptional

/-- The component state: the `nodes` / `connections` inputs (kept in sync with
the lists emitted outward, which the host echoes back) and the transient
signals the claims are about.  The drag and pan gesture states are omitted:
no claim depends on them. -/
structure EditorState where
  nodes : List RoadmapNode
  connections : List RoadmapConnection
  selectedNode : Option RoadmapNode
  viewport : ViewportState
  connectionState : ConnectionState
  editingResource : Option EditingResource
deriving DecidableEq, Repr

/-- One outward emission of the component. -/
inductive Emit where
  | nodesChange (nodes : List RoadmapNode)
  | connectionsChange (connections : List RoadmapConnection)
deriving DecidableEq, Repr

/-- The component's initial signal values: empty inputs, nothing selected,
viewport `{x: 0, y: 0, zoom: 1}`, no connection draw, no resource edit. -/
def initialState : EditorState where
  nodes := []
  connections := []
  selectedNode := none
  viewport := ⟨0, 0, 1⟩
  connectionState := ⟨false, none, 0, 0⟩
  editingResource := none

/-- TypeScript truthiness test `!x` on a `string | null` value: falsy exactly
on `null` and on the empty string. -/
def strFalsy : Option String → Bool
  | none => true
  | some s => s == ""

/-! ## Connection management -/

/-- `startConnection(nodeId, event)`: enter the drawing-connection state with
the given source node and the event's client coordinates. -/
def startConnection (nodeId : String) (mouseX mouseY : ℚ) (st : EditorState) :
    EditorState × List Emit :=
  ({ st with connectionState :=
      { isConnecting := true
        sourceNodeId := some nodeId
        mouseX := mouseX
        mouseY := mouseY } }, [])

/-- `cancelConnection()`: reset the drawing-connection state to idle. -/
def cancelConnection (st : EditorState) : EditorState × List Emit :=
  ({ st with connectionState :=
      { isConnecting := false
        sourceNodeId := none
        mouseX := 0
        mouseY := 0 } }, [])

/-- The duplicate-edge test of `completeConnection`: does `c` join the
unordered pair `{a, b}` (in either direction)? -/
def edgeMatches (a b : String) (c : RoadmapConnection) : Bool :=
  (c.sourceNodeId == a && c.targetNodeId == b) ||
  (c.sourceNodeId == b && c.targetNodeId == a)

/-- `completeConnection(targetNodeId)`: finish the in-progress connection draw
on a target node.  Bails out if no draw is in progress (or the source id is
falsy), cancels on a self-loop, cancels on an already existing edge between
the pair in either direction, otherwise appends a new required connection and
emits the new list.  `newId` stands for the `generateId()` call. -/
def completeConnection (targetNodeId : String) (newId : String)
    (st : EditorState) : EditorState × List Emit :=
  let state := st.connectionState
  if !state.isConnecting || strFalsy state.sourceNodeId then (st, [])
  else
    match state.sourceNodeId with
    | none => (st, [])
    | some sourceNodeId =>
      if sourceNodeId == targetNodeId then
        cancelConnection st
      else
        let alreadyExists := st.connections.any (edgeMatches sourceNodeId targetNodeId)
        if alreadyExists then
          cancelConnection st
        else
          let newConnection : RoadmapConnection :=
            { id := newId
              sourceNodeId := sourceNodeId
              targetNodeId := targetNodeId
              isRequired := true }
          let updatedConnections := st.connections ++ [newConnection]
          ((cancelConnection { st with connections := updatedConnections }).1,
            [Emit.connectionsChange updatedConnections])

/-- One connection-creation attempt between `a` and `b`: `startConnection(a)`
followed by `completeConnection(b)` (the `tryAddConnection(a, b)` of the
spec). -/
def connectionAttempt (a b newId : String) (mouseX mouseY : ℚ)
    (st : EditorState) : EditorState :=
  (completeConnection b newId (startConnection a mouseX mouseY st).1).1

/-- A sequence of connection-creation attempts, each given as
`(source, target, generated id)`, run left to right. -/
def runAttempts (attempts : List (String × String × String))
    (st : EditorState) : EditorState :=
  attempts.foldl (fun s t => connectionAttempt t.1 t.2.1 t.2.2 0 0 s) st

/-- The connections of `conns` joining the unordered pair `{a, b}`. -/
def edgesBetween (conns : List RoadmapConnection) (a b : String) :
    List RoadmapConnection :=
  conns.filter (edgeMatches a b)

/-- At most one connection between every unordered pair of node ids. -/
def pairUnique (conns : List RoadmapConnection) : Prop :=
  ∀ a b, (edgesBetween conns a b).length ≤ 1

/-- `deleteConnection(connectionId)`: drop the connection with that id and
emit the new list. -/
def deleteConnection (connectionId : String) (st : EditorState) :
    EditorState × List Emit :=
  let updatedConnections := st.connections.filter (fun c => c.id != connectionId)
  ({ st with connections := updatedConnections },
    [Emit.connectionsChange updatedConnections])

/-- `toggleConnectionRequired(connectionId)`: flip `isRequired` on the
connection with that id and emit the new list. -/
def toggleConnectionRequired (connectionId : String) (st : EditorState) :
    EditorState × List Emit :=
  let updatedConnections := st.connections.map (fun c =>
    if c.id == connectionId then { c with isRequired := !c.isRequired } else c)
  ({ st with connections := updatedConnections },
    [Emit.connectionsChange updatedConnections])

/-! ## Node management -/

/-- `updateNode(nodeId, updates)`: merge `updates` into every node with that
id, emit the new node list, and keep the selection in sync. -/
def updateNode (nodeId : String) (updates : PartialNode) (st : EditorState) :
    EditorState × List Emit :=
  let updatedNodes := st.nodes.map (fun node =>
    if node.id == nodeId then applyUpdates node updates else node)
  let st1 := { st with nodes := updatedNodes }
  let st2 :=
    match st.selectedNode with
    | some selected =>
        if selected.id == nodeId then
          { st1 with selectedNode := some (applyUpdates selected updates) }
        else st1
    | none => st1
  (st2, [Emit.nodesChange updatedNodes])

/-- `deleteNode(nodeId)`: remove the node and every connection where it is
source or target; emit both new lists; clear the selection if it pointed at
the deleted node. -/
def deleteNode (nodeId : String) (st : EditorState) : EditorState × List Emit :=
  let updatedNodes := st.nodes.filter (fun n => n.id != nodeId)
  let updatedConnections := st.connections.filter (fun c =>
    c.sourceNodeId != nodeId && c.targetNodeId != nodeId)
  let st1 := { st with nodes := updatedNodes, connections := updatedConnections }
  let st2 :=
    match st.selectedNode with
    | some selected =>
        if selected.id == nodeId then { st1 with selectedNode := none } else st1
    | none => st1
  (st2, [Emit.nodesChange updatedNodes, Emit.connectionsChange updatedConnections])

/-- `duplicateNode(node)`: append a copy of `node` with a new id, title
suffixed `' (copia)'`, position offset by `(+30, +30)`, and resources copied
with fresh ids; emit the new node list and select the copy.  `newId` stands
for the `generateId()` call on the node, `resId i` for the `generateId()`
call on the `i`-th resource. -/
def duplicateNode (node : RoadmapNode) (newId : String) (resId : Nat → String)
    (st : EditorState) : EditorState × List Emit :=
  let newNode : RoadmapNode :=
    { node with
      id := newId
      title := node.title ++ " (copia)"
      position := { x := node.position.x + 30, y := node.position.y + 30 }
      resources := node.resources.mapIdx (fun i r => { r with id := resId i }) }
  let updatedNodes := st.nodes ++ [newNode]
  ({ st with nodes := updatedNodes, selectedNode := some newNode },
    [Emit.nodesChange updatedNodes])

/-! ## Resource management -/

/-- `startAddResource(nodeId)`: open the resource edit form for that node with
empty title and url, type `'article'`, not premium. -/
def startAddResource (nodeId : String) (st : EditorState) :
    EditorState × List Emit :=
  let resource : PartialResource :=
    { title := some ""
      url := some ""
      type := some ResourceType.article
      isPremium := some false }
  ({ st with editingResource := some { nodeId := nodeId, resource := resource } }, [])

/-- `saveResource()`: bail out when nothing is being edited, the title is
falsy or the url is falsy; bail out when the owning node does not exist;
otherwise append a resource with a fresh id to the owning node's list via
`updateNode` and clear the edit state.  The source reads the possibly-absent
`type` through a plain `as ResourceType` cast; it is always present because
`startAddResource` seeds it, and the embedding defaults it to `'article'`. -/
def saveResource (newId : String) (st : EditorState) : EditorState × List Emit :=
  match st.editingResource with
  | none => (st, [])
  | some editing =>
    if strFalsy editing.resource.title || strFalsy editing.resource.url then
      (st, [])
    else
      match st.nodes.find? (fun n => n.id == editing.nodeId) with
      | none => (st, [])
      | some node =>
        let newResource : Resource :=
          { id := newId
            title := editing.resource.title.getD ""
            url := editing.resource.url.getD ""
            type := editing.resource.type.getD ResourceType.article
            isPremium := editing.resource.isPremium.getD false }
        let res := updateNode editing.nodeId
          { resources := some (node.resources ++ [newResource]) } st
        ({ res.1 with editingResource := none }, res.2)

/-- `cancelResourceEdit()`: drop the resource edit state. -/
def cancelResourceEdit (st : EditorState) : EditorState × List Emit :=
  ({ st with editingResource := none }, [])

/-- `deleteResource(nodeId, resourceId)`: remove one resource from a node via
`updateNode`; no-op when the node does not exist. -/
def deleteResource (nodeId resourceId : String) (st : EditorState) :
    EditorState × List Emit :=
  match st.nodes.find? (fun n => n.id == nodeId) with
  | none => (st, [])
  | some node =>
      updateNode nodeId
        { resources := some (node.resources.filter (fun r => r.id != resourceId)) } st

/-! ## Selection and keyboard -/

/-- `selectNode(node)`. -/
def selectNode (node : RoadmapNode) (st : EditorState) : EditorState × List Emit :=
  ({ st with selectedNode := some node }, [])

/-- `deselectNode()`. -/
def deselectNode (st : EditorState) : EditorState × List Emit :=
  ({ st with selectedNode := none }, [])

/-- The `'Escape'` branch of `onKeyDown(event)`.  `editableTarget` is
`isEditableElement(event.target)`: when the focus is in an editable control,
Escape only closes an open resource edit; otherwise it cancels an in-progress
connection draw, else cancels the resource edit, else clears the selection. -/
def onKeyDownEscape (editableTarget : Bool) (st : EditorState) :
    EditorState × List Emit :=
  if editableTarget then
    if st.editingResource.isSome then cancelResourceEdit st else (st, [])
  else
    if st.connectionState.isConnecting then
      cancelConnection st
    else if st.editingResource.isSome then
      cancelResourceEdit st
    else
      deselectNode st

/-! ## Pan and zoom -/

/-- `setZoom(newZoom)`: clamp the requested zoom to `[0.25, 2]`, leaving the
pan offset untouched. -/
def setZoom (newZoom : ℚ) (v : ViewportState) : ViewportState :=
  { v with zoom := max (1/4) (min 2 newZoom) }

/-- `resetView()`. -/
def resetView : ViewportState := ⟨0, 0, 1⟩

/-- The screen-to-canvas conversion used by `getTemporaryConnectionPath`
(lines 370–371) and the drag handler (lines 509–510):
`canvasPoint = (screenPoint - viewportOriginOffset - pan) / zoom`.  The
origin offset bundles the container rectangle corner and the toolbar
height. -/
def screenToCanvas (v : ViewportState) (originOffset p : NodePosition) :
    NodePosition :=
  { x := (p.x - originOffset.x - v.x) / v.zoom
    y := (p.y - originOffset.y - v.y) / v.zoom }

/-- The inverse canvas-to-screen conversion, as embedded in the grab-offset
computation of `onNodeMouseDown` (lines 487–488):
`screenPoint = canvasPoint * zoom + pan + viewportOriginOffset`. -/
def canvasToScreen (v : ViewportState) (originOffset p : NodePosition) :
    NodePosition :=
  { x := p.x * v.zoom + v.x + originOffset.x
    y := p.y * v.zoom + v.y + originOffset.y }

/-! ## Edge geometry -/

/-- The bounding rectangle of the canvas container
(`getBoundingClientRect()`), as far as the path math uses it. -/
structure ContainerRect where
  left : ℚ
  top : ℚ
deriving DecidableEq, Repr

/-- The SVG Bézier template shared by `getConnectionPath` and
`getTemporaryConnectionPath`:
`M startX startY C startX startY+o, endX endY-o, endX endY` with
`o = min(|endY - startY| * 0.5, 80)`. -/
def bezierPath (startX startY endX endY : ℚ) : String :=
  let controlOffset := min (|endY - startY| * (1/2)) 80
  let c1y := startY + controlOffset
  let c2y := endY - controlOffset
  let sx := toString startX
  let sy := toString startY
  let ex := toString endX
  let ey := toString endY
  let c1 := toString c1y
  let c2 := toString c2y
  s!"M {sx} {sy} C {sx} {c1}, {ex} {c2}, {ex} {ey}"

/-- `getConnectionPath(connection)`: the Bézier curve from the bottom-center
of the source node box to the top-center of the target node box; the empty
string when either endpoint node id is not found.  `nodeWidth` / `nodeHeight`
stand for `getNodeWidth()` / `getNodeHeight()`. -/
def getConnectionPath (nodeWidth nodeHeight : ℚ)
    (connection : RoadmapConnection) (st : EditorState) : String :=
  let sourceNode := st.nodes.find? (fun n => n.id == connection.sourceNodeId)
  let targetNode := st.nodes.find? (fun n => n.id == connection.targetNodeId)
  match sourceNode, targetNode with
  | some sourceNode, some targetNode =>
      let startX := sourceNode.position.x + nodeWidth / 2
      let startY := sourceNode.position.y + nodeHeight
      let endX := targetNode.position.x + nodeWidth / 2
      let endY := targetNode.position.y
      bezierPath startX startY endX endY
  | _, _ => ""

/-- `getTemporaryConnectionPath()`: the Bézier curve from the source node to
the current pointer position (converted to canvas coordinates); the empty
string when no draw is in progress, the source id is falsy or not found, or
the container is unavailable.  `toolbarHeight` stands for
`getToolbarHeight()`, the `container` parameter for
`canvasContainer()?.nativeElement`. -/
def getTemporaryConnectionPath (nodeWidth nodeHeight toolbarHeight : ℚ)
    (container : Option ContainerRect) (st : EditorState) : String :=
  let state := st.connectionState
  if !state.isConnecting || strFalsy state.sourceNodeId then ""
  else
    match state.sourceNodeId with
    | none => ""
    | some sourceId =>
      match st.nodes.find? (fun n => n.id == sourceId) with
      | none => ""
      | some sourceNode =>
        match container with
        | none => ""
        | some rect =>
          let viewport := st.viewport
          let startX := sourceNode.position.x + nodeWidth / 2
          let startY := sourceNode.position.y + nodeHeight
          let endX := (state.mouseX - rect.left - viewport.x) / viewport.zoom
          let endY := (state.mouseY - rect.top - toolbarHeight - viewport.y) / viewport.zoom
          bezierPath startX startY endX endY

/-! ## Helper lemmas -/

/-- The nodes of `deleteNode` are the old nodes without the deleted id. -/
lemma deleteNode_fst_nodes (x : String) (st : EditorState) :
    ((deleteNode x st).1).nodes = st.nodes.filter (fun n => n.id != x) := by
  unfold deleteNode
  dsimp only
  split <;> first | rfl | (split <;> rfl)

/-- The connections of `deleteNode` are the old connections not touching the
deleted id. -/
lemma deleteNode_fst_connections (x : String) (st : EditorState) :
    ((deleteNode x st).1).connections =
      st.connections.filter (fun c => c.sourceNodeId != x && c.targetNodeId != x) := by
  unfold deleteNode
  dsimp only
  split <;> first | rfl | (split <;> rfl)

/-- `deleteNode` emits exactly the two filtered lists. -/
lemma deleteNode_snd (x : String) (st : EditorState) :
    (deleteNode x st).2 =
      [Emit.nodesChange (st.nodes.filter (fun n => n.id != x)),
       Emit.connectionsChange
         (st.connections.filter (fun c => c.sourceNodeId != x && c.targetNodeId != x))] :=
  rfl

/-- The nodes of `updateNode` are the old nodes with the update merged into
every node carrying the target id. -/
lemma updateNode_fst_nodes (nodeId : String) (updates : PartialNode)
    (st : EditorState) :
    ((updateNode nodeId updates st).1).nodes =
      st.nodes.map (fun node =>
        if node.id == nodeId then applyUpdates node updates else node) := by
  unfold updateNode
  dsimp only
  split <;> first | rfl | (split <;> rfl)

/-- Refreshing the ids of a resource list leaves everything but the ids
unchanged. -/
lemma mapIdx_refresh_strip (l : List Resource) (f : Nat → String) :
    (l.mapIdx fun i r => { r with id := f i }).map
        (fun r => (r.title, r.url, r.type, r.isPremium)) =
      l.map (fun r => (r.title, r.url, r.type, r.isPremium)) := by
  induction l using List.list_reverse_induction with
  | base => rfl
  | ind l e ih => simp [List.mapIdx_append_one, ih]

/-- Every id produced by refreshing the ids of a resource list comes from the
supply at an index below the length. -/
lemma mapIdx_refresh_ids (l : List Resource) (f : Nat → String) :
    ∀ r ∈ l.mapIdx (fun i r => { r with id := f i }),
      ∃ i, i < l.length ∧ r.id = f i := by
  induction l using List.list_reverse_induction with
  | base => simp
  | ind l e ih =>
    intro r hr
    rw [List.mapIdx_append_one] at hr
    rcases List.mem_append.mp hr with h | h
    · obtain ⟨i, hi, hid⟩ := ih r h
      exact ⟨i, by simpa using Nat.lt_succ_of_lt hi, hid⟩
    · refine ⟨l.length, by simp, ?_⟩
      simp only [List.mem_singleton] at h
      rw [h]

/-- `edgeMatches` is symmetric in the pair. -/
lemma edgeMatches_symm (a b : String) (c : RoadmapConnection) :
    edgeMatches a b c = edgeMatches b a c := by
  simp [edgeMatches, Bool.or_comm]

/-- When no connection joins `{a, b}`, the filter on that pair is empty. -/
lemma any_edge_false_filter_nil (conns : List RoadmapConnection) (a b : String)
    (h : conns.any (edgeMatches a b) = false) :
    conns.filter (edgeMatches a b) = [] := by
  rw [List.filter_eq_nil_iff]
  intro c hc
  rw [List.any_eq_false] at h
  exact h c hc

/-- Appending an edge on a pair that is not yet connected preserves the
at-most-one-edge-per-unordered-pair invariant. -/
lemma pairUnique_append (conns : List RoadmapConnection) (e : RoadmapConnection)
    (h : pairUnique conns)
    (hnew : conns.any (edgeMatches e.sourceNodeId e.targetNodeId) = false) :
    pairUnique (conns ++ [e]) := by
  intro x y
  unfold edgesBetween
  rw [List.filter_append]
  by_cases hm : edgeMatches x y e = true
  · have hempty : conns.filter (edgeMatches x y) = [] := by
      have hm2 : (e.sourceNodeId = x ∧ e.targetNodeId = y) ∨
          (e.sourceNodeId = y ∧ e.targetNodeId = x) := by
        simpa [edgeMatches] using hm
      have hpt : ∀ c, edgeMatches x y c = edgeMatches e.sourceNodeId e.targetNodeId c := by
        intro c
        rcases hm2 with ⟨hx, hy⟩ | ⟨hy, hx⟩
        · rw [hx, hy]
        · rw [hy, hx]
          exact edgeMatches_symm x y c
      rw [List.filter_congr (fun c _ => hpt c)]
      exact any_edge_false_filter_nil conns _ _ hnew
    rw [hempty]
    simp [hm]
  · have hemptye : [e].filter (edgeMatches x y) = [] := by
      simp [List.filter, Bool.eq_false_iff.mpr hm]
    rw [hemptye, List.append_nil]
    exact h x y

/-- The connection list after one connection-creation attempt: either it is
unchanged, or the pair was not yet connected and exactly the new required
edge was appended. -/
lemma connectionAttempt_cases (a b newId : String) (mx my : ℚ) (st : EditorState) :
    (connectionAttempt a b newId mx my st).connections = st.connections ∨
    ((connectionAttempt a b newId mx my st).connections =
        st.connections ++ [{ id := newId, sourceNodeId := a, targetNodeId := b,
                             isRequired := true }] ∧
      st.connections.any (edgeMatches a b) = false) := by
  unfold connectionAttempt completeConnection startConnection cancelConnection
  by_cases ha : a = ""
  · left
    simp [ha, strFalsy]
  · by_cases hab : a = b
    · subst hab
      left
      simp [ha, strFalsy]
    · by_cases hex : st.connections.any (edgeMatches a b) = true
      · left
        simp [ha, hab, hex, strFalsy]
      · have hexf : st.connections.any (edgeMatches a b) = false := by
          simpa using hex
        right
        refine ⟨?_, hexf⟩
        simp [ha, hab, strFalsy, hexf]

/-- One connection-creation attempt preserves the invariant. -/
lemma connectionAttempt_pairUnique (a b newId : String) (mx my : ℚ)
    (st : EditorState) (h : pairUnique st.connections) :
    pairUnique (connectionAttempt a b newId mx my st).connections := by
  rcases connectionAttempt_cases a b newId mx my st with hc | ⟨hc, hnew⟩
  · rw [hc]
    exact h
  · rw [hc]
    exact pairUnique_append _ _ h hnew

/-- Every sequence of connection-creation attempts preserves the invariant. -/
lemma runAttempts_pairUnique (attempts : List (String × String × String))
    (st : EditorState) (h : pairUnique st.connections) :
    pairUnique (runAttempts attempts st).connections := by
  induction attempts generalizing st with
  | nil => exact h
  | cons t ts ih =>
    rw [runAttempts, List.foldl_cons]
    exact ih _ (connectionAttempt_pairUnique _ _ _ _ _ _ h)

/-! ## Claim theorems -/

/-- C4: for every requested zoom value `z`, `setZoom z` yields a zoom factor
in `[0.25, 2]`, applying `setZoom` again to the clamped result leaves the
viewport unchanged, and the pan offsets are unaffected. -/
theorem setZoom_clamp_idempotent_pan_frame (v : ViewportState) (z : ℚ) :
    (1/4 ≤ (setZoom z v).zoom ∧ (setZoom z v).zoom ≤ 2) ∧
    setZoom (setZoom z v).zoom (setZoom z v) = setZoom z v ∧
    (setZoom z v).x = v.x ∧ (setZoom z v).y = v.y := by
  have h1 : (1/4 : ℚ) ≤ max (1/4) (min 2 z) := le_max_left _ _
  have h2 : max (1/4 : ℚ) (min 2 z) ≤ 2 := max_le (by norm_num) (min_le_left _ _)
  refine ⟨⟨h1, h2⟩, ?_, rfl, rfl⟩
  simp only [setZoom]
  congr 1
  rw [min_eq_right h2, max_eq_right h1]

/-- C5: for a fixed viewport with nonzero zoom and a fixed viewport-origin
offset, converting a canvas point to screen coordinates and back recovers the
original point exactly. -/
theorem screen_canvas_round_trip (v : ViewportState) (originOffset p : NodePosition)
    (h : v.zoom ≠ 0) :
    screenToCanvas v originOffset (canvasToScreen v originOffset p) = p := by
  cases p with
  | mk px py =>
    simp only [screenToCanvas, canvasToScreen, NodePosition.mk.injEq]
    constructor <;> (field_simp)

/-- Witness for C5 at a concrete viewport, offset and point. -/
theorem screen_canvas_round_trip_witness :
    screenToCanvas ⟨5, 7, 2⟩ ⟨3, 4⟩ (canvasToScreen ⟨5, 7, 2⟩ ⟨3, 4⟩ ⟨10, 20⟩) =
      (⟨10, 20⟩ : NodePosition) :=
  screen_canvas_round_trip ⟨5, 7, 2⟩ ⟨3, 4⟩ ⟨10, 20⟩ (by norm_num)

/-- C3: `deleteNode x` yields a node list without `x` and a connection list
with zero entries referencing `x` as source or target; every other node and
every connection not touching `x` is preserved, nothing new appears, and both
lists are emitted. -/
theorem deleteNode_cascade (st : EditorState) (x : String) :
    (∀ n ∈ ((deleteNode x st).1).nodes, n.id ≠ x) ∧
    (∀ c ∈ ((deleteNode x st).1).connections,
        c.sourceNodeId ≠ x ∧ c.targetNodeId ≠ x) ∧
    (∀ n ∈ st.nodes, n.id ≠ x → n ∈ ((deleteNode x st).1).nodes) ∧
    (∀ c ∈ st.connections, c.sourceNodeId ≠ x → c.targetNodeId ≠ x →
        c ∈ ((deleteNode x st).1).connections) ∧
    (∀ n ∈ ((deleteNode x st).1).nodes, n ∈ st.nodes) ∧
    (∀ c ∈ ((deleteNode x st).1).connections, c ∈ st.connections) ∧
    (deleteNode x st).2 =
      [Emit.nodesChange ((deleteNode x st).1).nodes,
       Emit.connectionsChange ((deleteNode x st).1).connections] := by
  rw [deleteNode_fst_nodes, deleteNode_fst_connections, deleteNode_snd]
  refine ⟨?_, ?_, ?_, ?_, ?_, ?_, rfl⟩ <;>
    simp +contextual [List.mem_filter]

/-- Witness for C3: deleting node `a` from a two-node graph with one edge
incident to `a` empties the connection list and keeps node `b`. -/
theorem deleteNode_cascade_witness :
    (∀ n ∈ ((deleteNode "a"
        { initialState with
          nodes := [{ id := "a", title := "A", description := "", type := NodeType.topic,
                      position := ⟨0, 0⟩, resources := [], estimatedHours := 1,
                      isOptional := false },
                    { id := "b", title := "B", description := "", type := NodeType.topic,
                      position := ⟨1, 1⟩, resources := [], estimatedHours := 1,
                      isOptional := false }]
          connections := [{ id := "c1", sourceNodeId := "a", targetNodeId := "b",
                            isRequired := true }] }).1).nodes, n.id ≠ "a") ∧
    (∀ c ∈ ((deleteNode "a"
        { initialState with
          nodes := [{ id := "a", title := "A", description := "", type := NodeType.topic,
                      position := ⟨0, 0⟩, resources := [], estimatedHours := 1,
                      isOptional := false },
                    { id := "b", title := "B", description := "", type := NodeType.topic,
                      position := ⟨1, 1⟩, resources := [], estimatedHours := 1,
                      isOptional := false }]
          connections := [{ id := "c1", sourceNodeId := "a", targetNodeId := "b",
                            isRequired := true }] }).1).connections,
        c.sourceNodeId ≠ "a" ∧ c.targetNodeId ≠ "a") := by
  have h := deleteNode_cascade
    { initialState with
      nodes := [{ id := "a", title := "A", description := "", type := NodeType.topic,
                  position := ⟨0, 0⟩, resources := [], estimatedHours := 1,
                  isOptional := false },
                { id := "b", title := "B", description := "", type := NodeType.topic,
                  position := ⟨1, 1⟩, resources := [], estimatedHours := 1,
                  isOptional := false }]
      connections := [{ id := "c1", sourceNodeId := "a", targetNodeId := "b",
                        isRequired := true }] } "a"
  exact ⟨h.1, h.2.1⟩

/-- C7: when a connection references a node id missing from the node list,
`getConnectionPath` returns the empty path, and `getTemporaryConnectionPath`
returns the empty path when its source node is missing; both functions are
total, so neither can throw. -/
theorem missing_endpoint_empty_path (nodeWidth nodeHeight toolbarHeight : ℚ)
    (container : Option ContainerRect) (st : EditorState) (c : RoadmapConnection) :
    ((∀ n ∈ st.nodes, n.id ≠ c.sourceNodeId) ∨ (∀ n ∈ st.nodes, n.id ≠ c.targetNodeId) →
      getConnectionPath nodeWidth nodeHeight c st = "") ∧
    (∀ s, st.connectionState.sourceNodeId = some s → (∀ n ∈ st.nodes, n.id ≠ s) →
      getTemporaryConnectionPath nodeWidth nodeHeight toolbarHeight container st = "") := by
  constructor
  · rintro (h | h)
    · have hs : st.nodes.find? (fun n => n.id == c.sourceNodeId) = none :=
        List.find?_eq_none.mpr (fun n hn => by simpa using h n hn)
      simp only [getConnectionPath, hs]
    · have ht : st.nodes.find? (fun n => n.id == c.targetNodeId) = none :=
        List.find?_eq_none.mpr (fun n hn => by simpa using h n hn)
      simp only [getConnectionPath, ht]
      cases st.nodes.find? (fun n => n.id == c.sourceNodeId) <;> rfl
  · intro s hs hmiss
    have hfind : st.nodes.find? (fun n => n.id == s) = none :=
      List.find?_eq_none.mpr (fun n hn => by simpa using hmiss n hn)
    unfold getTemporaryConnectionPath
    cases hic : st.connectionState.isConnecting <;>
      by_cases hse : s = "" <;>
        simp [hic, hs, hse, strFalsy, hfind]

/-- Witness for C7: a connection whose source id `'ghost'` matches no node
yields the empty path, and a connection draw from a vanished source node
yields the empty temporary path. -/
theorem missing_endpoint_empty_path_witness :
    (getConnectionPath 220 80
      { id := "c1", sourceNodeId := "ghost", targetNodeId := "b", isRequired := true }
      { initialState with
        nodes := [{ id := "b", title := "B", description := "", type := NodeType.topic,
                    position := ⟨1, 1⟩, resources := [], estimatedHours := 1,
                    isOptional := false }] } = "") ∧
    (getTemporaryConnectionPath 220 80 56 (some ⟨0, 0⟩)
      { initialState with
        nodes := [{ id := "b", title := "B", description := "", type := NodeType.topic,
                    position := ⟨1, 1⟩, resources := [], estimatedHours := 1,
                    isOptional := false }]
        connectionState := ⟨true, some "ghost", 3, 4⟩ } = "") := by
  have h1 := missing_endpoint_empty_path 220 80 56 (some ⟨0, 0⟩)
    { initialState with
      nodes := [{ id := "b", title := "B", description := "", type := NodeType.topic,
                  position := ⟨1, 1⟩, resources := [], estimatedHours := 1,
                  isOptional := false }] }
    { id := "c1", sourceNodeId := "ghost", targetNodeId := "b", isRequired := true }
  have h2 := missing_endpoint_empty_path 220 80 56 (some ⟨0, 0⟩)
    { initialState with
      nodes := [{ id := "b", title := "B", description := "", type := NodeType.topic,
                  position := ⟨1, 1⟩, resources := [], estimatedHours := 1,
                  isOptional := false }]
      connectionState := ⟨true, some "ghost", 3, 4⟩ }
    { id := "c1", sourceNodeId := "ghost", targetNodeId := "b", isRequired := true }
  exact ⟨h1.1 (Or.inl (by decide)), h2.2 "ghost" rfl (by decide)⟩

/-- Counterexample for C2: for the (degenerate but representable) node id
`''`, the self-loop attempt leaves the connection list unchanged but does NOT
cancel the drawing state back to idle: `completeConnection` bails out on the
falsy source id before reaching `cancelConnection`, so `isConnecting` stays
`true`. -/
theorem self_loop_empty_id_not_cancelled :
    ¬ (((connectionAttempt "" "" "c1" 0 0 initialState).connectionState).isConnecting
        = false) := by
  decide

/-- C2 (amended): a connection attempt from a node to itself never changes
the connection list and never emits, and for every nonempty node id the
drawing state is cancelled back to idle (for the empty id the attempt is
ignored and the drawing state is left active). -/
theorem self_loop_attempt_noop (st : EditorState) (a newId : String) (mx my : ℚ) :
    (connectionAttempt a a newId mx my st).connections = st.connections ∧
    (completeConnection a newId (startConnection a mx my st).1).2 = [] ∧
    (a ≠ "" →
      (connectionAttempt a a newId mx my st).connectionState =
        { isConnecting := false, sourceNodeId := none, mouseX := 0, mouseY := 0 }) := by
  unfold connectionAttempt completeConnection startConnection cancelConnection
  by_cases h : a = "" <;> simp [h, strFalsy]

/-- Witness for C2 (amended) at node id `'n1'` on the initial state. -/
theorem self_loop_attempt_noop_witness :
    (connectionAttempt "n1" "n1" "c1" 0 0 initialState).connections =
        initialState.connections ∧
    (connectionAttempt "n1" "n1" "c1" 0 0 initialState).connectionState =
      { isConnecting := false, sourceNodeId := none, mouseX := 0, mouseY := 0 } :=
  ⟨(self_loop_attempt_noop initialState "n1" "c1" 0 0).1,
   (self_loop_attempt_noop initialState "n1" "c1" 0 0).2.2 (by decide)⟩

/-- C9: with focus outside editable controls, Escape cancels the in-progress
connection draw if one is active, else cancels the resource edit if one is
active, else clears the node selection — exactly one of the three, in that
priority order — and in every case the node list and the connection list are
unchanged and nothing is emitted; in particular, after starting a connection
Escape returns the drawing state to idle with the connection list
unchanged. -/
theorem escape_priority (st : EditorState) :
    ((onKeyDownEscape false st).1).nodes = st.nodes ∧
    ((onKeyDownEscape false st).1).connections = st.connections ∧
    (onKeyDownEscape false st).2 = [] ∧
    (st.connectionState.isConnecting = true →
      ((onKeyDownEscape false st).1).connectionState =
          { isConnecting := false, sourceNodeId := none, mouseX := 0, mouseY := 0 } ∧
      ((onKeyDownEscape false st).1).editingResource = st.editingResource ∧
      ((onKeyDownEscape false st).1).selectedNode = st.selectedNode) ∧
    (st.connectionState.isConnecting = false → st.editingResource.isSome = true →
      ((onKeyDownEscape false st).1).editingResource = none ∧
      ((onKeyDownEscape false st).1).connectionState = st.connectionState ∧
      ((onKeyDownEscape false st).1).selectedNode = st.selectedNode) ∧
    (st.connectionState.isConnecting = false → st.editingResource = none →
      ((onKeyDownEscape false st).1).selectedNode = none ∧
      ((onKeyDownEscape false st).1).connectionState = st.connectionState ∧
      ((onKeyDownEscape false st).1).editingResource = none) ∧
    (∀ a mx my,
      ((onKeyDownEscape false (startConnection a mx my st).1).1).connectionState =
          { isConnecting := false, sourceNodeId := none, mouseX := 0, mouseY := 0 } ∧
      ((onKeyDownEscape false (startConnection a mx my st).1).1).connections =
          st.connections) := by
  unfold onKeyDownEscape cancelConnection cancelResourceEdit deselectNode startConnection
  cases hic : st.connectionState.isConnecting <;>
    cases hed : st.editingResource <;>
      simp [hic, hed]

/-- Witness for C9: starting a connection draw from `'a'` on the initial
state and pressing Escape returns the drawing state to idle with the
connection list unchanged. -/
theorem escape_priority_witness :
    ((onKeyDownEscape false (startConnection "a" 3 4 initialState).1).1).connectionState =
        { isConnecting := false, sourceNodeId := none, mouseX := 0, mouseY := 0 } ∧
    ((onKeyDownEscape false (startConnection "a" 3 4 initialState).1).1).connections =
        initialState.connections ∧
    ((onKeyDownEscape false initialState).1).selectedNode = none :=
  ⟨((escape_priority initialState).2.2.2.2.2.2 "a" 3 4).1,
   ((escape_priority initialState).2.2.2.2.2.2 "a" 3 4).2,
   ((escape_priority initialState).2.2.2.2.2.1 rfl rfl).1⟩

/-- C10: `duplicateNode` leaves the connection list untouched, emits only a
node-list change (never a connections change), and — as long as the freshly
generated node id is not referenced by any existing connection — the
duplicate has zero incident connections. -/
theorem duplicateNode_connection_frame (st : EditorState) (n : RoadmapNode)
    (newId : String) (resId : Nat → String)
    (hfresh : ∀ c ∈ st.connections, c.sourceNodeId ≠ newId ∧ c.targetNodeId ≠ newId) :
    ((duplicateNode n newId resId st).1).connections = st.connections ∧
    (∀ l, Emit.connectionsChange l ∉ (duplicateNode n newId resId st).2) ∧
    ((duplicateNode n newId resId st).1).connections.filter
        (fun c => c.sourceNodeId == newId || c.targetNodeId == newId) = [] := by
  refine ⟨rfl, ?_, ?_⟩
  · intro l hl
    simp [duplicateNode] at hl
  · refine List.filter_eq_nil_iff.mpr (fun c hc => ?_)
    have h := hfresh c hc
    simp [h.1, h.2]

/-- Witness for C10: duplicating node `a` of a connected two-node graph with
fresh id `'z'` keeps the single connection and gives the duplicate no
incident edges. -/
theorem duplicateNode_connection_frame_witness :
    ((duplicateNode
        { id := "a", title := "A", description := "", type := NodeType.topic,
          position := ⟨0, 0⟩, resources := [], estimatedHours := 1, isOptional := false }
        "z" (fun _ => "r")
        { initialState with
          connections := [{ id := "c1", sourceNodeId := "a", targetNodeId := "b",
                            isRequired := true }] }).1).connections =
      [{ id := "c1", sourceNodeId := "a", targetNodeId := "b", isRequired := true }] ∧
    ((duplicateNode
        { id := "a", title := "A", description := "", type := NodeType.topic,
          position := ⟨0, 0⟩, resources := [], estimatedHours := 1, isOptional := false }
        "z" (fun _ => "r")
        { initialState with
          connections := [{ id := "c1", sourceNodeId := "a", targetNodeId := "b",
                            isRequired := true }] }).1).connections.filter
        (fun c => c.sourceNodeId == "z" || c.targetNodeId == "z") = [] := by
  have h := duplicateNode_connection_frame
    { initialState with
      connections := [{ id := "c1", sourceNodeId := "a", targetNodeId := "b",
                        isRequired := true }] }
    { id := "a", title := "A", description := "", type := NodeType.topic,
      position := ⟨0, 0⟩, resources := [], estimatedHours := 1, isOptional := false }
    "z" (fun _ => "r") (by decide)
  exact ⟨h.1, h.2.2⟩

/-- C8: `saveResource` is a no-op (no emission, node list, resource lists and
edit state unchanged — in particular the edit panel stays open) when nothing
is being edited, the title is missing or empty, the url is missing or empty,
or the owning node does not exist; only when both fields are present and the
owning node exists does it append a resource with the fresh id to the owning
node's list and clear the edit state. -/
theorem saveResource_requires_title_url_node (st : EditorState) (newId : String) :
    (st.editingResource = none → saveResource newId st = (st, [])) ∧
    (∀ ed, st.editingResource = some ed →
      (strFalsy ed.resource.title || strFalsy ed.resource.url) = true →
      saveResource newId st = (st, [])) ∧
    (∀ ed, st.editingResource = some ed →
      st.nodes.find? (fun n => n.id == ed.nodeId) = none →
      saveResource newId st = (st, [])) ∧
    (∀ ed node, st.editingResource = some ed →
      (strFalsy ed.resource.title || strFalsy ed.resource.url) = false →
      st.nodes.find? (fun n => n.id == ed.nodeId) = some node →
      ((saveResource newId st).1).editingResource = none ∧
      ((saveResource newId st).1).nodes = st.nodes.map (fun m =>
        if m.id == ed.nodeId then
          { m with resources := node.resources ++
              [{ id := newId
                 title := ed.resource.title.getD ""
                 url := ed.resource.url.getD ""
                 type := ed.resource.type.getD ResourceType.article
                 isPremium := ed.resource.isPremium.getD false }] }
        else m) ∧
      (saveResource newId st).2 =
        [Emit.nodesChange (((saveResource newId st).1).nodes)]) := by
  refine ⟨?_, ?_, ?_, ?_⟩
  · intro h
    simp [saveResource, h]
  · intro ed hed hfalsy
    simp [saveResource, hed, hfalsy]
  · intro ed hed hfind
    by_cases hfalsy : (strFalsy ed.resource.title || strFalsy ed.resource.url) = true
    · simp [saveResource, hed, hfalsy]
    · simp [saveResource, hed, hfalsy, hfind]
  · intro ed node hed hfalsy hfind
    simp [saveResource, hed, hfalsy, hfind, updateNode, applyUpdates]
    constructor
    · rcases hsel : st.selectedNode with _ | sel
      · simp [hsel]
      · by_cases hid : sel.id = ed.nodeId <;> simp [hsel, hid]
    · rcases hsel : st.selectedNode with _ | sel
      · simp [hsel]
      · by_cases hid : sel.id = ed.nodeId <;> simp [hsel, hid]

/-- Witness for C8: a save with an empty url is a no-op that leaves the edit
panel open, while a save with both fields set appends the resource to node
`'a'` and clears the edit state. -/
theorem saveResource_requires_title_url_node_witness :
    (saveResource "r1"
      { initialState with
        nodes := [{ id := "a", title := "A", description := "", type := NodeType.topic,
                    position := ⟨0, 0⟩, resources := [], estimatedHours := 1,
                    isOptional := false }]
        editingResource := some
          ⟨"a", { title := some "T", url := some "", type := some ResourceType.article,
                  isPremium := some false }⟩ } =
      ({ initialState with
        nodes := [{ id := "a", title := "A", description := "", type := NodeType.topic,
                    position := ⟨0, 0⟩, resources := [], estimatedHours := 1,
                    isOptional := false }]
        editingResource := some
          ⟨"a", { title := some "T", url := some "", type := some ResourceType.article,
                  isPremium := some false }⟩ }, [])) ∧
    (((saveResource "r1"
      { initialState with
        nodes := [{ id := "a", title := "A", description := "", type := NodeType.topic,
                    position := ⟨0, 0⟩, resources := [], estimatedHours := 1,
                    isOptional := false }]
        editingResource := some
          ⟨"a", { title := some "T", url := some "U", type := some ResourceType.article,
                  isPremium := some false }⟩ }).1).editingResource = none) := by
  have h1 := saveResource_requires_title_url_node
    { initialState with
      nodes := [{ id := "a", title := "A", description := "", type := NodeType.topic,
                  position := ⟨0, 0⟩, resources := [], estimatedHours := 1,
                  isOptional := false }]
      editingResource := some
        ⟨"a", { title := some "T", url := some "", type := some ResourceType.article,
                isPremium := some false }⟩ } "r1"
  have h2 := saveResource_requires_title_url_node
    { initialState with
      nodes := [{ id := "a", title := "A", description := "", type := NodeType.topic,
                  position := ⟨0, 0⟩, resources := [], estimatedHours := 1,
                  isOptional := false }]
      editingResource := some
        ⟨"a", { title := some "T", url := some "U", type := some ResourceType.article,
                isPremium := some false }⟩ } "r1"
  refine ⟨h1.2.1 _ rfl (by decide), ?_⟩
  exact (h2.2.2.2 _
    { id := "a", title := "A", description := "", type := NodeType.topic,
      position := ⟨0, 0⟩, resources := [], estimatedHours := 1, isOptional := false }
    rfl (by decide) (by decide)).1

/-- Counterexample for C6: the source suffixes the duplicated title with
`' (copia)'`, not `' (copy)'`: duplicating a node titled `'A'` does not
produce the title `'A (copy)'` the claim requires. -/
theorem duplicateNode_copy_suffix_cex :
    ((duplicateNode
        { id := "n1", title := "A", description := "", type := NodeType.topic,
          position := ⟨0, 0⟩, resources := [], estimatedHours := 1, isOptional := false }
        "n2" (fun _ => "r") initialState).1).nodes.map RoadmapNode.title ≠
      ["A" ++ " (copy)"] := by
  decide

/-- C6 (amended): `duplicateNode n` appends exactly one node whose id is the
freshly generated one (distinct from every existing id when the generator is
fresh), whose title is `n`'s title suffixed `' (copia)'`, whose position is
`n`'s offset by exactly `(+30, +30)`, and whose resources are copies of `n`'s
with fresh ids; afterwards, removing a resource on the duplicate leaves every
pre-existing node — in particular `n` with its resource list — unchanged. -/
theorem duplicateNode_amended (st : EditorState) (n : RoadmapNode) (newId : String)
    (resId : Nat → String)
    (hfresh : ∀ m ∈ st.nodes, m.id ≠ newId)
    (hresFresh : ∀ i, i < n.resources.length → ∀ r ∈ n.resources, resId i ≠ r.id) :
    ∃ d, ((duplicateNode n newId resId st).1).nodes = st.nodes ++ [d] ∧
      d.id = newId ∧
      (∀ m ∈ st.nodes, m.id ≠ d.id) ∧
      d.title = n.title ++ " (copia)" ∧
      d.position.x = n.position.x + 30 ∧
      d.position.y = n.position.y + 30 ∧
      d.resources.map (fun r => (r.title, r.url, r.type, r.isPremium)) =
        n.resources.map (fun r => (r.title, r.url, r.type, r.isPremium)) ∧
      (∀ r ∈ d.resources, ∀ r2 ∈ n.resources, r.id ≠ r2.id) ∧
      (∀ resourceId, ∀ m ∈ st.nodes,
        m ∈ ((deleteResource d.id resourceId (duplicateNode n newId resId st).1).1).nodes) := by
  refine ⟨_, rfl, rfl, ?_, rfl, rfl, rfl, mapIdx_refresh_strip n.resources resId, ?_, ?_⟩
  · intro m hm
    exact hfresh m hm
  · intro r hr r2 hr2
    obtain ⟨i, hi, hid⟩ := mapIdx_refresh_ids n.resources resId r hr
    rw [hid]
    exact hresFresh i hi r2 hr2
  · intro resourceId m hm
    have hne : (m.id == newId) = false := by
      simpa using hfresh m hm
    unfold deleteResource
    rcases hfind : (((duplicateNode n newId resId st).1).nodes.find?
        (fun node => node.id == newId)) with _ | node
    · dsimp only
      rw [hfind]
      exact List.mem_append_left _ hm
    · dsimp only
      rw [hfind]
      rw [updateNode_fst_nodes]
      have hmem : m ∈ ((duplicateNode n newId resId st).1).nodes :=
        List.mem_append_left _ hm
      have := List.mem_map_of_mem
        (fun nd => if nd.id == newId then
            applyUpdates nd
              { resources := some (node.resources.filter (fun r => r.id != resourceId)) }
          else nd) hmem
      simpa [hne] using this

/-- Witness for C6 (amended): duplicating a one-resource node `'n1'` with
fresh ids `'n2'` / `'r2'` appends a copy titled `'A (copia)'`. -/
theorem duplicateNode_amended_witness :
    ((duplicateNode
        { id := "n1", title := "A", description := "", type := NodeType.topic,
          position := ⟨0, 0⟩,
          resources := [{ id := "r1", title := "R", url := "u",
                          type := ResourceType.video, isPremium := false }],
          estimatedHours := 1, isOptional := false }
        "n2" (fun _ => "r2")
        { initialState with
          nodes := [{ id := "n1", title := "A", description := "", type := NodeType.topic,
                      position := ⟨0, 0⟩,
                      resources := [{ id := "r1", title := "R", url := "u",
                                      type := ResourceType.video, isPremium := false }],
                      estimatedHours := 1, isOptional := false }] }).1).nodes.map
        RoadmapNode.title = ["A", "A" ++ " (copia)"] := by
  obtain ⟨d, hnodes, hid, hfreshid, htitle, hx, hy, hstrip, hids, hframe⟩ :=
    duplicateNode_amended
      { initialState with
        nodes := [{ id := "n1", title := "A", description := "", type := NodeType.topic,
                    position := ⟨0, 0⟩,
                    resources := [{ id := "r1", title := "R", url := "u",
                                    type := ResourceType.video, isPremium := false }],
                    estimatedHours := 1, isOptional := false }] }
      { id := "n1", title := "A", description := "", type := NodeType.topic,
        position := ⟨0, 0⟩,
        resources := [{ id := "r1", title := "R", url := "u",
                        type := ResourceType.video, isPremium := false }],
        estimatedHours := 1, isOptional := false }
      "n2" (fun _ => "r2") (by decide) (by decide)
  rw [hnodes]
  simp [htitle]

/-- C1: for every sequence of connection-creation attempts
(`startConnection` then `completeConnection`, in either direction) the
resulting connection list has at most one connection between every unordered
pair — both starting from any invariant-satisfying list and from the initial
empty one; an attempt for a pair already connected in either direction leaves
the connection list unchanged; and every attempt that changes the list
appends exactly one connection with `isRequired` true. -/
theorem connection_attempt_uniqueness (st : EditorState) :
    (pairUnique st.connections →
      ∀ attempts, pairUnique (runAttempts attempts st).connections) ∧
    (∀ attempts, pairUnique (runAttempts attempts initialState).connections) ∧
    (∀ a b newId, ∀ mx my : ℚ, edgesBetween st.connections a b ≠ [] →
      (connectionAttempt a b newId mx my st).connections = st.connections) ∧
    (∀ a b newId, ∀ mx my : ℚ,
      (connectionAttempt a b newId mx my st).connections ≠ st.connections →
      (connectionAttempt a b newId mx my st).connections =
        st.connections ++ [{ id := newId, sourceNodeId := a, targetNodeId := b,
                             isRequired := true }]) := by
  refine ⟨fun h attempts => runAttempts_pairUnique attempts st h,
          fun attempts => runAttempts_pairUnique attempts initialState ?_, ?_, ?_⟩
  · intro a b
    simp [edgesBetween, initialState]
  · intro a b newId mx my hne
    rcases connectionAttempt_cases a b newId mx my st with hc | ⟨_, hnew⟩
    · exact hc
    · exact absurd (any_edge_false_filter_nil st.connections a b hnew) hne
  · intro a b newId mx my hne
    rcases connectionAttempt_cases a b newId mx my st with hc | ⟨hc, _⟩
    · exact absurd hc hne
    · exact hc

/-- Witness for C1: attempting `a → b` then `b → a` from the empty list keeps
the invariant; re-attempting over an existing `a → b` edge leaves the list
unchanged; a successful attempt on the empty list appends the one required
edge. -/
theorem connection_attempt_uniqueness_witness :
    pairUnique (runAttempts [("a", "b", "c1"), ("b", "a", "c2")]
      initialState).connections ∧
    (connectionAttempt "b" "a" "c3" 0 0
      { initialState with
        connections := [{ id := "c1", sourceNodeId := "a", targetNodeId := "b",
                          isRequired := true }] }).connections =
      [{ id := "c1", sourceNodeId := "a", targetNodeId := "b", isRequired := true }] ∧
    (connectionAttempt "a" "b" "c1" 0 0 initialState).connections =
      [{ id := "c1", sourceNodeId := "a", targetNodeId := "b", isRequired := true }] := by
  refine ⟨(connection_attempt_uniqueness initialState).2.1 _, ?_, ?_⟩
  · exact (connection_attempt_uniqueness
      { initialState with
        connections := [{ id := "c1", sourceNodeId := "a", targetNodeId := "b",
                          isRequired := true }] }).2.2.1 "b" "a" "c3" 0 0 (by decide)
  · have h := (connection_attempt_uniqueness initialState).2.2.2 "a" "b" "c1" 0 0
      (by decide)
    simpa [initialState] using h

end NodeEditor
